import Mathlib

/-!
# Verification of the OAuth 2.1 + PKCE core and the vault file-access layer

Shallow embedding of `app/mcp/oauth.py` and `app/vault/service.py`.

Conventions of the embedding:
* Python `dict[str, V]` becomes an association list `List (String × V)`
  with first-match lookup; insertion removes any previous binding and
  appends, deletion removes the binding.
* `time.time()` and every `secrets.token_urlsafe(...)` call are
  nondeterministic inputs of the Python code; they become explicit
  arguments (`now : Nat`, fresh strings) of the embedded functions.
* Fallible endpoint inputs (unparsable JSON / form bodies) become
  `Option` arguments.
-/

namespace ObsidianAgent

/-! ## String primitives

Python `str` operations are modelled character-wise over `String.data`, so
every definition evaluates inside the kernel. -/

/-- Python `s.startswith(pre)`. -/
def strStartsWith (s pre : String) : Bool :=
  pre.data.isPrefixOf s.data

/-- Python `s[n:]` (slicing by code points, as Python does). -/
def strDrop (s : String) (n : Nat) : String :=
  String.mk (s.data.drop n)

/-- Python `s.endswith(suf)`. -/
def strEndsWith (s suf : String) : Bool :=
  suf.data.isSuffixOf s.data

/-- ASCII lowering, enough for the `.md`-suffix comparison. -/
def strToLower (s : String) : String :=
  String.mk (s.data.map Char.toLower)

/-- A Python whitespace character (the ASCII ones `str.strip` removes). -/
def isSpaceChar (c : Char) : Bool :=
  c = ' ' || c = '\t' || c = '\n' || c = '\r' || c = '\x0b' || c = '\x0c'

/-- Python `not s.strip()`: the string is empty or all whitespace. -/
def strIsBlank (s : String) : Bool :=
  s.data.all isSpaceChar

/-- Decidable equality for `Except`, so concrete validation outcomes can
be settled by `decide`. -/
instance exceptDecEq {ε α : Type} [DecidableEq ε] [DecidableEq α] :
    DecidableEq (Except ε α) := fun a b =>
  match a, b with
  | .error e₁, .error e₂ =>
    if h : e₁ = e₂ then isTrue (by subst h; rfl)
    else isFalse (fun hc => h (by injection hc))
  | .ok v₁, .ok v₂ =>
    if h : v₁ = v₂ then isTrue (by subst h; rfl)
    else isFalse (fun hc => h (by injection hc))
  | .error _, .ok _ => isFalse (fun hc => Except.noConfusion hc)
  | .ok _, .error _ => isFalse (fun hc => Except.noConfusion hc)

/-! ## Association-list model of Python dicts -/

/-- First-match lookup, the embedding of `dict.get`. -/
def lookupKey {α : Type} (l : List (String × α)) (k : String) : Option α :=
  match l with
  | [] => none
  | (k', v) :: rest => if k' = k then some v else lookupKey rest k

/-- Remove every binding of `k`, the embedding of `dict.pop` / `del`. -/
def eraseKey {α : Type} (l : List (String × α)) (k : String) : List (String × α) :=
  l.filter (fun p => p.1 ≠ k)

/-- Bind `k` to `v`, the embedding of `d[k] = v`. -/
def insertKey {α : Type} (l : List (String × α)) (k : String) (v : α) :
    List (String × α) :=
  eraseKey l k ++ [(k, v)]

theorem lookupKey_eraseKey {α : Type} (l : List (String × α)) (k : String) :
    lookupKey (eraseKey l k) k = none := by
  induction l with
  | nil => rfl
  | cons hd tl ih =>
    by_cases h : hd.1 = k
    · simpa [eraseKey, h] using ih
    · simpa [eraseKey, lookupKey, h] using ih

theorem lookupKey_insertKey {α : Type} (l : List (String × α)) (k : String) (v : α) :
    lookupKey (insertKey l k v) k = some v := by
  induction l with
  | nil => simp [insertKey, eraseKey, lookupKey]
  | cons hd tl ih =>
    by_cases h : hd.1 = k
    · simpa [insertKey, eraseKey, h] using ih
    · simpa [insertKey, eraseKey, lookupKey, h] using ih

theorem lookupKey_filter_of_pred {α : Type} {l : List (String × α)} {k : String}
    {v : α} (p : String × α → Bool) (hl : lookupKey l k = some v)
    (hp : p (k, v) = true) : lookupKey (l.filter p) k = some v := by
  induction l with
  | nil => simp [lookupKey] at hl
  | cons hd tl ih =>
    by_cases h : hd.1 = k
    · rw [lookupKey, if_pos h] at hl
      obtain ⟨k', v'⟩ := hd
      obtain rfl : v' = v := by simpa using hl
      obtain rfl : k' = k := h
      simp [List.filter, hp, lookupKey]
    · rw [lookupKey, if_neg h] at hl
      by_cases hph : p hd = true
      · simp [List.filter, hph, lookupKey, h, ih hl]
      · simp only [Bool.not_eq_true] at hph
        simp [List.filter, hph, ih hl]

theorem lookupKey_filter_pred {α : Type} {l : List (String × α)} {k : String}
    {v : α} {p : String × α → Bool}
    (hl : lookupKey (l.filter p) k = some v) : p (k, v) = true := by
  induction l with
  | nil => simp [List.filter, lookupKey] at hl
  | cons hd tl ih =>
    by_cases hph : p hd = true
    · rw [List.filter_cons_of_pos hph] at hl
      by_cases h : hd.1 = k
      · rw [lookupKey, if_pos h] at hl
        obtain ⟨k', v'⟩ := hd
        obtain rfl : v' = v := by simpa using hl
        obtain rfl : k' = k := h
        exact hph
      · rw [lookupKey, if_neg h] at hl
        exact ih hl
    · simp only [Bool.not_eq_true] at hph
      rw [List.filter_cons_of_neg (by simp [hph])] at hl
      exact ih hl

theorem lookupKey_filter_none {α : Type} {l : List (String × α)} {k : String}
    (p : String × α → Bool) (hl : lookupKey l k = none) :
    lookupKey (l.filter p) k = none := by
  induction l with
  | nil => simp [List.filter, lookupKey]
  | cons hd tl ih =>
    by_cases h : hd.1 = k
    · rw [lookupKey, if_pos h] at hl
      exact absurd hl (by simp)
    · rw [lookupKey, if_neg h] at hl
      by_cases hph : p hd = true
      · simp [List.filter, hph, lookupKey, h, ih hl]
      · simp only [Bool.not_eq_true] at hph
        simp [List.filter, hph, ih hl]

/-! ## SHA-256 (the `hashlib.sha256` the PKCE verifier calls)

Bytes and 32-bit words are `Nat` values kept below `2 ^ 8` / `2 ^ 32` by
explicit `% 4294967296` reductions. -/

/-- Right rotation of a 32-bit word. -/
def rotr32 (x n : Nat) : Nat :=
  ((x >>> n) ||| (x <<< (32 - n))) % 4294967296

/-- SHA-256 round constants (fractional parts of cube roots of the first
64 primes). -/
def sha256K : List Nat :=
  [1116352408, 1899447441, 3049323471, 3921009573, 961987163,
   1508970993, 2453635748, 2870763221, 3624381080, 310598401,
   607225278, 1426881987, 1925078388, 2162078206, 2614888103,
   3248222580, 3835390401, 4022224774, 264347078, 604807628,
   770255983, 1249150122, 1555081692, 1996064986, 2554220882,
   2821834349, 2952996808, 3210313671, 3336571891, 3584528711,
   113926993, 338241895, 666307205, 773529912, 1294757372,
   1396182291, 1695183700, 1986661051, 2177026350, 2456956037,
   2730485921, 2820302411, 3259730800, 3345764771, 3516065817,
   3600352804, 4094571909, 275423344, 430227734, 506948616,
   659060556, 883997877, 958139571, 1322822218, 1537002063,
   1747873779, 1955562222, 2024104815, 2227730452, 2361852424,
   2428436474, 2756734187, 3204031479, 3329325298]

/-- SHA-256 initial hash state. -/
def sha256H0 : List Nat :=
  [1779033703, 3144134277, 1013904242, 2773480762,
   1359893119, 2600822924, 528734635, 1541459225]

/-- Merkle–Damgård padding: `0x80`, zeros to 56 mod 64, 8-byte big-endian
bit length. -/
def sha256Pad (msg : List Nat) : List Nat :=
  let l := msg.length
  let bitLen := 8 * l
  let zeroCount := (120 - ((l + 1) % 64)) % 64
  msg ++ [0x80] ++ List.replicate zeroCount 0 ++
    [(bitLen >>> 56) &&& 0xff, (bitLen >>> 48) &&& 0xff,
     (bitLen >>> 40) &&& 0xff, (bitLen >>> 32) &&& 0xff,
     (bitLen >>> 24) &&& 0xff, (bitLen >>> 16) &&& 0xff,
     (bitLen >>> 8) &&& 0xff, bitLen &&& 0xff]

/-- Group a byte list into 64-byte chunks; the fuel argument (any bound on
the chunk count, e.g. the list length) only forces structural recursion. -/
def chunks64Aux : Nat → List Nat → List (List Nat)
  | 0, _ => []
  | _, [] => []
  | fuel + 1, l => l.take 64 :: chunks64Aux fuel (l.drop 64)

/-- Group a padded message into 64-byte chunks. -/
def chunks64 (l : List Nat) : List (List Nat) :=
  chunks64Aux l.length l

/-- Big-endian bytes to 32-bit words. -/
def bytesToWords : List Nat → List Nat
  | b0 :: b1 :: b2 :: b3 :: rest =>
      ((b0 <<< 24) + (b1 <<< 16) + (b2 <<< 8) + b3) :: bytesToWords rest
  | _ => []

/-- Extend 16 schedule words to 64. -/
def sha256Extend (w : List Nat) : List Nat :=
  (List.range 48).foldl
    (fun acc _ =>
      let n := acc.length
      let w15 := acc.getD (n - 15) 0
      let w2 := acc.getD (n - 2) 0
      let s0 := rotr32 w15 7 ^^^ rotr32 w15 18 ^^^ (w15 >>> 3)
      let s1 := rotr32 w2 17 ^^^ rotr32 w2 19 ^^^ (w2 >>> 10)
      acc ++ [(acc.getD (n - 16) 0 + s0 + acc.getD (n - 7) 0 + s1) % 4294967296])
    w

/-- One compression round. -/
def sha256Round (st : Nat × Nat × Nat × Nat × Nat × Nat × Nat × Nat)
    (kw : Nat × Nat) : Nat × Nat × Nat × Nat × Nat × Nat × Nat × Nat :=
  match st, kw with
  | (a, b, c, d, e, f, g, h), (kv, wv) =>
    let s1 := rotr32 e 6 ^^^ rotr32 e 11 ^^^ rotr32 e 25
    let ch := (e &&& f) ^^^ ((e ^^^ 0xffffffff) &&& g)
    let temp1 := (h + s1 + ch + kv + wv) % 4294967296
    let s0 := rotr32 a 2 ^^^ rotr32 a 13 ^^^ rotr32 a 22
    let maj := (a &&& b) ^^^ (a &&& c) ^^^ (b &&& c)
    let temp2 := (s0 + maj) % 4294967296
    ((temp1 + temp2) % 4294967296, a, b, c, (d + temp1) % 4294967296, e, f, g)

/-- Compress one 64-byte chunk into the running hash state. -/
def sha256Compress (hs : List Nat) (chunk : List Nat) : List Nat :=
  let ws := sha256Extend (bytesToWords chunk)
  let init := (hs.getD 0 0, hs.getD 1 0, hs.getD 2 0, hs.getD 3 0,
               hs.getD 4 0, hs.getD 5 0, hs.getD 6 0, hs.getD 7 0)
  match (sha256K.zip ws).foldl sha256Round init with
  | (a, b, c, d, e, f, g, h) =>
    [(hs.getD 0 0 + a) % 4294967296, (hs.getD 1 0 + b) % 4294967296,
     (hs.getD 2 0 + c) % 4294967296, (hs.getD 3 0 + d) % 4294967296,
     (hs.getD 4 0 + e) % 4294967296, (hs.getD 5 0 + f) % 4294967296,
     (hs.getD 6 0 + g) % 4294967296, (hs.getD 7 0 + h) % 4294967296]

/-- SHA-256 digest of a byte sequence, as 32 bytes. -/
def sha256 (msg : List Nat) : List Nat :=
  let finalH := (chunks64 (sha256Pad msg)).foldl sha256Compress sha256H0
  (finalH.map (fun w =>
    [(w >>> 24) &&& 0xff, (w >>> 16) &&& 0xff, (w >>> 8) &&& 0xff, w &&& 0xff])).flatten

/-! ## UTF-8 encoding (the `.encode()` call) and unpadded base64url -/

/-- UTF-8 encoding of a single code point. -/
def utf8EncodeChar (c : Char) : List Nat :=
  let n := c.toNat
  if n < 0x80 then [n]
  else if n < 0x800 then
    [0xc0 ||| (n >>> 6), 0x80 ||| (n &&& 0x3f)]
  else if n < 0x10000 then
    [0xe0 ||| (n >>> 12), 0x80 ||| ((n >>> 6) &&& 0x3f), 0x80 ||| (n &&& 0x3f)]
  else
    [0xf0 ||| (n >>> 18), 0x80 ||| ((n >>> 12) &&& 0x3f),
     0x80 ||| ((n >>> 6) &&& 0x3f), 0x80 ||| (n &&& 0x3f)]

/-- UTF-8 encoding of a string, the embedding of Python `str.encode()`. -/
def utf8Encode (s : String) : List Nat :=
  (s.data.map utf8EncodeChar).flatten

/-- The base64url alphabet (RFC 4648 §5). -/
def b64Alphabet : List Char :=
  "ABCDEFGHIJKLMNOPQRSTUVWXYZabcdefghijklmnopqrstuvwxyz0123456789-_".data

/-- Character for a 6-bit group. -/
def b64Char (n : Nat) : Char := b64Alphabet.getD n 'A'

/-- Unpadded base64url of a byte sequence: the embedding of
`base64.urlsafe_b64encode(...).decode().rstrip("=")`. -/
def b64urlNoPad : List Nat → String
  | [] => ""
  | [a] =>
    let n := a <<< 16
    String.mk [b64Char (n >>> 18), b64Char ((n >>> 12) &&& 63)]
  | [a, b] =>
    let n := (a <<< 16) + (b <<< 8)
    String.mk [b64Char (n >>> 18), b64Char ((n >>> 12) &&& 63),
               b64Char ((n >>> 6) &&& 63)]
  | a :: b :: c :: rest =>
    let n := (a <<< 16) + (b <<< 8) + c
    String.mk [b64Char (n >>> 18), b64Char ((n >>> 12) &&& 63),
               b64Char ((n >>> 6) &&& 63), b64Char (n &&& 63)] ++ b64urlNoPad rest

/-- `verify_pkce` from `app/mcp/oauth.py`: pure, takes no store. -/
def verify_pkce (code_verifier code_challenge mthd : String) : Bool :=
  if mthd = "S256" then
    decide (b64urlNoPad (sha256 (utf8Encode code_verifier)) = code_challenge)
  else if mthd = "plain" then
    decide (code_verifier = code_challenge)
  else
    false

/-- SHA-256 sanity check: the FIPS 180 test vector for `"abc"`. -/
example : sha256 (utf8Encode "abc") =
    [0xba, 0x78, 0x16, 0xbf, 0x8f, 0x01, 0xcf, 0xea,
     0x41, 0x41, 0x40, 0xde, 0x5d, 0xae, 0x22, 0x23,
     0xb0, 0x03, 0x61, 0xa3, 0x96, 0x17, 0x7a, 0x9c,
     0xb4, 0x10, 0xff, 0x61, 0xf2, 0x00, 0x15, 0xad] := by decide

/-- PKCE sanity check: the RFC 7636 appendix B example verifier/challenge. -/
example : verify_pkce "dBjftJeZ4CVP-mB92K27uhbUJU1p1r_wW1gFWFOEjXk"
    "E9Melhoa2OwvFrEMTJguCHaoeK1t8URWbuGJSstw-cM" "S256" = true := by decide

/-! ## Data model (`DynamicClient`, `AuthorizationCode`, `AccessToken`) -/

/-- `DynamicClient` from `app/mcp/oauth.py`. -/
structure DynamicClient where
  client_id : String
  client_secret : String
  redirect_uris : List String
  created_at : Nat
deriving DecidableEq, Repr

/-- `AuthorizationCode` from `app/mcp/oauth.py`. -/
structure AuthorizationCode where
  code : String
  client_id : String
  redirect_uri : String
  code_challenge : String
  code_challenge_method : String
  scope : String
  expires_at : Nat
  resource : Option String
deriving DecidableEq, Repr

/-- `AccessToken` from `app/mcp/oauth.py`. -/
structure AccessToken where
  token : String
  client_id : String
  scope : String
  expires_at : Nat
  resource : Option String
deriving DecidableEq, Repr

/-- `OAuthStore.__init__`: three maps plus the ambient-mode flag. -/
structure OAuthStore where
  clients : List (String × DynamicClient)
  codes : List (String × AuthorizationCode)
  tokens : List (String × AccessToken)
  allow_any_client : Bool
deriving DecidableEq, Repr

/-- The empty store (`OAuthStore(allow_any_client=...)`). -/
def OAuthStore.init (allow_any_client : Bool) : OAuthStore :=
  ⟨[], [], [], allow_any_client⟩

/-- `OAuthStore._cleanup_expired_codes`: drop codes with `expires_at < now`. -/
def OAuthStore.cleanup_expired_codes (st : OAuthStore) (now : Nat) : OAuthStore :=
  { st with codes := st.codes.filter (fun p => !decide (p.2.expires_at < now)) }

/-- `OAuthStore._cleanup_expired_tokens`: drop tokens with `expires_at < now`. -/
def OAuthStore.cleanup_expired_tokens (st : OAuthStore) (now : Nat) : OAuthStore :=
  { st with tokens := st.tokens.filter (fun p => !decide (p.2.expires_at < now)) }

/-- `OAuthStore.register_client`. The generated `client_id` and
`client_secret` (`secrets.token_urlsafe`) are explicit inputs. The Python
method performs no validation of `redirect_uris`. -/
def OAuthStore.register_client (st : OAuthStore) (redirect_uris : List String)
    (client_id client_secret : String) (now : Nat) : DynamicClient × OAuthStore :=
  let client : DynamicClient := ⟨client_id, client_secret, redirect_uris, now⟩
  (client, { st with clients := insertKey st.clients client_id client })

/-- The fixed redirect allow-list of the synthesized ambient client. -/
def ambientRedirectUris : List String :=
  ["https://chatgpt.com/connector_platform_oauth_redirect",
   "https://platform.openai.com/apps-manage/oauth"]

/-- `OAuthStore.get_client`: stored client, else a synthesized virtual
client when `allow_any_client` is set. Nothing is written to the store. -/
def OAuthStore.get_client (st : OAuthStore) (client_id : String) (now : Nat) :
    Option DynamicClient :=
  match lookupKey st.clients client_id with
  | some client => some client
  | none =>
    if st.allow_any_client then
      some ⟨client_id, "", ambientRedirectUris, now⟩
    else
      none

/-- `OAuthStore.create_authorization_code`: store the record, then sweep
expired codes (the Python method sweeps after the insertion). -/
def OAuthStore.create_authorization_code (st : OAuthStore)
    (client_id redirect_uri code_challenge code_challenge_method scope : String)
    (resource : Option String) (code : String) (now ttl_seconds : Nat) :
    String × OAuthStore :=
  let record : AuthorizationCode :=
    ⟨code, client_id, redirect_uri, code_challenge, code_challenge_method,
     scope, now + ttl_seconds, resource⟩
  let st' := { st with codes := insertKey st.codes code record }
  (code, st'.cleanup_expired_codes now)

/-- `OAuthStore.consume_authorization_code`: sweep, then pop (atomic take). -/
def OAuthStore.consume_authorization_code (st : OAuthStore) (code : String)
    (now : Nat) : Option AuthorizationCode × OAuthStore :=
  let st' := st.cleanup_expired_codes now
  (lookupKey st'.codes code, { st' with codes := eraseKey st'.codes code })

/-- `OAuthStore.create_access_token`: store the token, then sweep expired
tokens. -/
def OAuthStore.create_access_token (st : OAuthStore) (client_id scope : String)
    (resource : Option String) (token : String) (now ttl_seconds : Nat) :
    String × OAuthStore :=
  let record : AccessToken := ⟨token, client_id, scope, now + ttl_seconds, resource⟩
  let st' := { st with tokens := insertKey st.tokens token record }
  (token, st'.cleanup_expired_tokens now)

/-- `OAuthStore.validate_token`: sweep expired tokens, then a plain
`dict.get` — the surviving entry is returned, never removed. -/
def OAuthStore.validate_token (st : OAuthStore) (token : String) (now : Nat) :
    Option AccessToken × OAuthStore :=
  let st' := st.cleanup_expired_tokens now
  (lookupKey st'.tokens token, st')

/-! ## Token endpoint (`create_token_endpoint.token_exchange`) -/

/-- The form fields the token endpoint reads. `grant_type` is
`form.get("grant_type")` (may be missing); the others default to `""`. -/
structure TokenForm where
  grant_type : Option String
  code : String
  redirect_uri : String
  client_id : String
  client_secret : String
  code_verifier : String
deriving DecidableEq, Repr

/-- A token-endpoint JSON response: an error body with a status, or the
success body `{access_token, token_type, expires_in, scope}`. -/
inductive TokenResponse where
  | err (status : Nat) (error : String) (error_description : Option String)
  | ok (access_token token_type : String) (expires_in : Nat) (scope : String)
deriving DecidableEq, Repr

/-- `token_exchange`: `form? = none` embeds a body that fails to parse;
`freshToken` is the `secrets.token_urlsafe(32)` value used on success. -/
def token_exchange (st : OAuthStore) (form? : Option TokenForm)
    (freshToken : String) (now : Nat) : TokenResponse × OAuthStore :=
  match form? with
  | none => (.err 400 "invalid_request" none, st)
  | some f =>
    if f.grant_type ≠ some "authorization_code" then
      (.err 400 "unsupported_grant_type" none, st)
    else
      match st.get_client f.client_id now with
      | none => (.err 401 "invalid_client" none, st)
      | some client =>
        if client.client_secret ≠ "" ∧ client.client_secret ≠ f.client_secret then
          (.err 401 "invalid_client" none, st)
        else
          match st.consume_authorization_code f.code now with
          | (none, st1) =>
            (.err 400 "invalid_grant" (some "Invalid or expired authorization code"), st1)
          | (some auth_code, st1) =>
            if auth_code.client_id ≠ f.client_id then
              (.err 400 "invalid_grant" none, st1)
            else if auth_code.redirect_uri ≠ f.redirect_uri then
              (.err 400 "invalid_grant" none, st1)
            else if !verify_pkce f.code_verifier auth_code.code_challenge
                auth_code.code_challenge_method then
              (.err 400 "invalid_grant" (some "PKCE verification failed"), st1)
            else
              let (access_token, st2) :=
                st1.create_access_token f.client_id auth_code.scope
                  auth_code.resource freshToken now 3600
              (.ok access_token "Bearer" 3600 auth_code.scope, st2)

/-! ## Authorization endpoint (`create_authorization_endpoint.authorize`) -/

/-- The query parameters the authorization endpoint reads; each is
`params.get(...)`, so `none` embeds an absent parameter. -/
structure AuthorizeParams where
  client_id : Option String
  redirect_uri : Option String
  response_type : Option String
  code_challenge : Option String
  code_challenge_method : Option String
  scope : Option String
  state : Option String
  resource : Option String
deriving DecidableEq, Repr

/-- An authorization-endpoint response: a direct JSON error, or a redirect
to `uri` carrying `params` as its query string (in `urlencode` order). -/
inductive AuthorizeResponse where
  | jsonError (status : Nat) (error : String)
  | redirect (uri : String) (params : List (String × String))
deriving DecidableEq, Repr

/-- `client_id and oauth_store.get_client(client_id)`: a missing or empty
`client_id` short-circuits to no client. -/
def resolveClient (st : OAuthStore) (client_id : Option String) (now : Nat) :
    Option DynamicClient :=
  match client_id with
  | none => none
  | some cid => if cid = "" then none else st.get_client cid now

/-- `authorize`: `freshCode` is the `secrets.token_urlsafe(32)` value used
when a code is minted. -/
def authorize (st : OAuthStore) (p : AuthorizeParams) (freshCode : String)
    (now : Nat) : AuthorizeResponse × OAuthStore :=
  let scope := p.scope.getD "mcp"
  let state := p.state.getD ""
  match resolveClient st p.client_id now with
  | none => (.jsonError 400 "invalid_client", st)
  | some client =>
    match p.redirect_uri with
    | none => (.jsonError 400 "invalid_redirect_uri", st)
    | some ruri =>
      if ruri ∉ client.redirect_uris then
        (.jsonError 400 "invalid_redirect_uri", st)
      else if p.code_challenge = none ∨ p.code_challenge = some "" ∨
          p.code_challenge_method ≠ some "S256" then
        (.redirect ruri
          [("error", "invalid_request"),
           ("error_description", "code_challenge with S256 method is required"),
           ("state", state)], st)
      else
        let (code, st') := st.create_authorization_code (p.client_id.getD "")
          ruri (p.code_challenge.getD "") (p.code_challenge_method.getD "")
          scope p.resource freshCode now 600
        (.redirect ruri [("code", code), ("state", state)], st')

/-! ## Registration endpoint
(`create_dynamic_client_registration_endpoint.register_client`) -/

/-- A JSON value, as far as the registration endpoint inspects one. -/
inductive Json where
  | null
  | bool (b : Bool)
  | num (n : Int)
  | str (s : String)
  | arr (xs : List Json)
  | obj (fields : List (String × Json))

/-- Python truthiness of a JSON value (`not redirect_uris`). -/
def jsonTruthy : Json → Bool
  | .null => false
  | .bool b => b
  | .num n => n != 0
  | .str s => s != ""
  | .arr xs => !xs.isEmpty
  | .obj fs => !fs.isEmpty

/-- `isinstance(redirect_uris, list)`. -/
def jsonIsArr : Json → Bool
  | .arr _ => true
  | _ => false

/-- The string elements of a JSON array. The endpoint forwards the raw
array to `register_client`; the flows under verification only carry arrays
of strings, which this projection preserves exactly. -/
def jsonArrStrs : Json → List String
  | .arr xs => xs.filterMap (fun j => match j with | .str s => some s | _ => none)
  | _ => []

/-- A registration response: a JSON error body, or the 201 body echoing
the stored client. -/
inductive RegisterResponse where
  | err (status : Nat) (error : String) (error_description : String)
  | created (status : Nat) (client : DynamicClient)

/-- The registration endpoint. `body? = none` embeds a request whose JSON
fails to parse; `some body` is the parsed object, and
`lookupKey body "redirect_uris"` is `body.get("redirect_uris", [])` before
the default is applied. -/
def register_client_endpoint (st : OAuthStore) (body? : Option (List (String × Json)))
    (freshId freshSecret : String) (now : Nat) : RegisterResponse × OAuthStore :=
  match body? with
  | none => (.err 400 "invalid_request" "Invalid JSON", st)
  | some body =>
    let redirect_uris := (lookupKey body "redirect_uris").getD (Json.arr [])
    if !jsonTruthy redirect_uris || !jsonIsArr redirect_uris then
      (.err 400 "invalid_redirect_uri"
        "redirect_uris is required and must be an array", st)
    else
      let (client, st') :=
        st.register_client (jsonArrStrs redirect_uris) freshId freshSecret now
      (.created 201 client, st')

/-! ## Bearer enforcement gate (`OAuthMiddleware`) -/

/-- The constructor arguments of `OAuthMiddleware`. -/
structure MiddlewareConfig where
  protected_paths : List String
  resource_uri : String
  metadata_uri : String
deriving DecidableEq, Repr

/-- Outcome of `OAuthMiddleware.dispatch`: forwarded untouched
(non-protected path), forwarded with `client_id`/`scope` attached to the
request state, or a 401 JSON response. -/
inductive DispatchResult where
  | passthrough
  | forwarded (client_id scope : String)
  | unauthorized (status : Nat) (body_error body_description www_authenticate : String)
deriving DecidableEq, Repr

/-- `OAuthMiddleware._unauthorized_response`: 401 body and the exact
`WWW-Authenticate` header string. -/
def unauthorized_response (cfg : MiddlewareConfig) (error_description : String) :
    DispatchResult :=
  .unauthorized 401 "invalid_token" error_description
    ("Bearer realm=\"" ++ cfg.resource_uri ++ "\", resource_metadata=\"" ++
     cfg.metadata_uri ++ "\", scope=\"mcp\", error=\"invalid_token\", error_description=\"" ++
     error_description ++ "\"")

/-- `OAuthMiddleware.dispatch`. `authHeader = none` embeds a request with
no `Authorization` header. -/
def dispatch (cfg : MiddlewareConfig) (st : OAuthStore) (path : String)
    (authHeader : Option String) (now : Nat) : DispatchResult × OAuthStore :=
  if !cfg.protected_paths.any (fun pre => strStartsWith path pre) then
    (.passthrough, st)
  else
    match authHeader with
    | none => (unauthorized_response cfg "Bearer token required", st)
    | some h =>
      if h = "" ∨ strStartsWith h "Bearer " = false then
        (unauthorized_response cfg "Bearer token required", st)
      else
        let token := strDrop h 7
        match st.validate_token token now with
        | (none, st1) => (unauthorized_response cfg "Invalid or expired token", st1)
        | (some info, st1) => (.forwarded info.client_id info.scope, st1)

/-! ## Authorization server metadata
(`create_authorization_server_metadata_endpoint`) -/

/-- The RFC 8414 metadata document. -/
structure AuthorizationServerMetadata where
  issuer : String
  authorization_endpoint : String
  token_endpoint : String
  registration_endpoint : String
  scopes_supported : List String
  response_types_supported : List String
  grant_types_supported : List String
  code_challenge_methods_supported : List String
  token_endpoint_auth_methods_supported : List String
deriving DecidableEq, Repr

/-- `authorization_server_metadata`: the static JSON derived from `issuer`. -/
def authorization_server_metadata (issuer : String) : AuthorizationServerMetadata :=
  ⟨issuer, issuer ++ "/oauth/authorize", issuer ++ "/oauth/token",
   issuer ++ "/oauth/register", ["mcp"], ["code"], ["authorization_code"],
   ["S256"], ["client_secret_post"]⟩

/-! ## Vault path handling (`app/vault/service.py`)

`pathlib.PurePosixPath` is modelled lexically: a path is an absolute flag
plus its components, with empty and `"."` components dropped by the parser
and `".."` kept, exactly as `pathlib` does. -/

/-- Split a character list on `/`. -/
def splitSlash : List Char → List Char → List String
  | [], cur => [String.mk cur.reverse]
  | c :: rest, cur =>
    if c = '/' then String.mk cur.reverse :: splitSlash rest []
    else splitSlash rest (c :: cur)

/-- `Path(s).parts` without the root marker: split on `/`, drop empty and
`"."` components, keep `".."`. -/
def pathParts (s : String) : List String :=
  (splitSlash s.data []).filter (fun c => c != "" && c != ".")

/-- `Path(s).is_absolute()` on POSIX. -/
def pathIsAbsolute (s : String) : Bool :=
  strStartsWith s "/"

/-- `PurePath.relative_to` is lexical: it succeeds iff `base`'s parts are
a prefix of `target`'s parts, with no `".."` normalization. -/
def relativeToSucceeds (target base : List String) : Bool :=
  base.isPrefixOf target

/-- POSIX resolution of `".."` components (what the kernel does when the
path is actually opened): each `".."` removes the preceding component. -/
def normalizeParts (parts : List String) : List String :=
  parts.foldl (fun acc c => if c = ".." then acc.dropLast else acc ++ [c]) []

/-- `VaultService._is_hidden`. -/
def is_hidden (name : String) : Bool :=
  strStartsWith name "."

/-- `VaultService._is_markdown`: `path.suffix.lower() == ".md"` on the
final component (a suffix exists only after a dot that is neither the
first nor the last character of the name). -/
def is_markdown (parts : List String) : Bool :=
  match parts.getLast? with
  | none => false
  | some name => strEndsWith (strToLower name) ".md" && name.length > 3

/-- `VaultService._resolve_inside_vault` for a vault root with components
`vaultRoot`: reject absolute paths, join, and re-check with the lexical
`relative_to`. Returns the joined (unnormalized) target components. -/
def resolve_inside_vault (vaultRoot : List String) (path : String) :
    Except String (List String) :=
  if pathIsAbsolute path then
    .error "path must be relative"
  else
    let target := vaultRoot ++ pathParts path
    if relativeToSucceeds target vaultRoot then
      .ok target
    else
      .error "path escapes vault root"

/-- The path-validation part of `VaultService.ls`: exactly
`_resolve_inside_vault` — no hidden-component and no `".."` check on the
input path (the listing that follows filters hidden *entries* only). -/
def ls_validate (vaultRoot : List String) (path : String) :
    Except String (List String) :=
  resolve_inside_vault vaultRoot path

/-- The path-validation part of `VaultService.read` (`write` shares it up
to the existence checks): `not path or not path.strip()`, hidden-component
check on `Path(path).parts`, resolution, `.md` check. The `_ensure_file`
filesystem-existence step is not part of the lexical model. -/
def read_validate (vaultRoot : List String) (path : String) :
    Except String (List String) :=
  if path = "" || strIsBlank path then
    .error "path must be non-empty"
  else if (pathParts path).any is_hidden then
    .error "hidden paths are not allowed"
  else
    match resolve_inside_vault vaultRoot path with
    | .error e => .error e
    | .ok target =>
      if !is_markdown target then
        .error "only .md files are allowed"
      else
        .ok target

/-- The pattern-validation part of `VaultService.glob`: non-empty check,
absolute / `".."` rejection, hidden-component check. -/
def glob_validate (pattern : String) : Except String Unit :=
  if pattern = "" || strIsBlank pattern then
    .error "pattern must be non-empty"
  else if pathIsAbsolute pattern || (pathParts pattern).contains ".." then
    .error "pattern must be relative and not escape vault"
  else if ((pathParts pattern).filter (fun p => p != "." && p != "..")).any is_hidden then
    .error "hidden paths are not allowed in pattern"
  else
    .ok ()

/-! ## Helper lemmas about the store and the token endpoint -/

/-- `get_client` reads only the client map and the ambient flag, and a
resolved client's secret is stable across store states that share them:
a registered client is returned unchanged, and the ambient virtual client
always carries the empty secret. -/
theorem get_client_secret_stable {st st' : OAuthStore} {cid : String}
    {now now' : Nat} {client : DynamicClient}
    (hcl : st'.clients = st.clients)
    (hfl : st'.allow_any_client = st.allow_any_client)
    (h : st.get_client cid now = some client) :
    ∃ client', st'.get_client cid now' = some client' ∧
      client'.client_secret = client.client_secret ∧
      client'.redirect_uris = client.redirect_uris := by
  unfold OAuthStore.get_client at h ⊢
  rw [hcl, hfl]
  cases hl : lookupKey st.clients cid with
  | some c =>
    rw [hl] at h
    obtain rfl : c = client := by injection h
    exact ⟨c, rfl, rfl, rfl⟩
  | none =>
    rw [hl] at h
    by_cases hf : st.allow_any_client
    · rw [if_pos hf] at h
      injection h with h'
      exact ⟨⟨cid, "", ambientRedirectUris, now'⟩, by rw [if_pos hf],
        by rw [← h'], by rw [← h']⟩
    · rw [if_neg hf] at h
      exact absurd h (by simp)

/-- Consuming a code never touches the client map or the ambient flag. -/
theorem consume_preserves_clients (st : OAuthStore) (code : String) (now : Nat) :
    (st.consume_authorization_code code now).2.clients = st.clients ∧
    (st.consume_authorization_code code now).2.allow_any_client = st.allow_any_client :=
  ⟨rfl, rfl⟩

/-- When the presented code has no live entry, the token endpoint answers
400 `invalid_grant` (given that the checks before consumption pass), and
the code map still has no entry for it afterwards. -/
theorem token_exchange_absent_code {st : OAuthStore} {f : TokenForm}
    (freshToken : String) (now : Nat) {client : DynamicClient}
    (hg : f.grant_type = some "authorization_code")
    (hc : st.get_client f.client_id now = some client)
    (hs : client.client_secret = "" ∨ client.client_secret = f.client_secret)
    (habs : lookupKey st.codes f.code = none) :
    (token_exchange st (some f) freshToken now).1 =
      .err 400 "invalid_grant" (some "Invalid or expired authorization code") ∧
    lookupKey (token_exchange st (some f) freshToken now).2.codes f.code = none := by
  have hnone : lookupKey (st.cleanup_expired_codes now).codes f.code = none :=
    lookupKey_filter_none _ habs
  have hsec : ¬(client.client_secret ≠ "" ∧ client.client_secret ≠ f.client_secret) := by
    rcases hs with h | h <;> simp [h]
  simp only [token_exchange, hg, ne_eq, not_true_eq_false, if_false, hc, if_neg hsec,
    OAuthStore.consume_authorization_code, hnone]
  exact ⟨trivial, lookupKey_eraseKey _ _⟩

/-- When the checks before consumption pass and the code is live but a
binding or PKCE check then fails, the endpoint answers 400 `invalid_grant`
and hands back exactly the post-consumption store. -/
theorem token_exchange_post_consume_failure {st : OAuthStore} {f : TokenForm}
    {freshToken : String} {now : Nat} {client : DynamicClient}
    {ac : AuthorizationCode}
    (hg : f.grant_type = some "authorization_code")
    (hc : st.get_client f.client_id now = some client)
    (hs : client.client_secret = "" ∨ client.client_secret = f.client_secret)
    (hcons : (st.consume_authorization_code f.code now).1 = some ac)
    (hfail : ac.client_id ≠ f.client_id ∨ ac.redirect_uri ≠ f.redirect_uri ∨
      verify_pkce f.code_verifier ac.code_challenge ac.code_challenge_method = false) :
    (∃ d, (token_exchange st (some f) freshToken now).1 = .err 400 "invalid_grant" d) ∧
    (token_exchange st (some f) freshToken now).2 =
      (st.consume_authorization_code f.code now).2 := by
  have hsec : ¬(client.client_secret ≠ "" ∧ client.client_secret ≠ f.client_secret) := by
    rcases hs with h | h <;> simp [h]
  rcases hp : st.consume_authorization_code f.code now with ⟨res, st1⟩
  have hres : res = some ac := by simpa [hp] using hcons
  subst hres
  simp only [token_exchange, hg, ne_eq, not_true_eq_false, if_false, hc,
    if_neg hsec, hp]
  by_cases k1 : ac.client_id = f.client_id
  · rw [if_neg (by simp [k1])]
    by_cases k2 : ac.redirect_uri = f.redirect_uri
    · rw [if_neg (by simp [k2])]
      have k3 : verify_pkce f.code_verifier ac.code_challenge
          ac.code_challenge_method = false := by
        rcases hfail with h | h | h
        · exact absurd k1 h
        · exact absurd k2 h
        · exact h
      rw [if_pos (by simp [k3])]
      exact ⟨⟨some "PKCE verification failed", rfl⟩, rfl⟩
    · rw [if_pos (by simp [k2])]
      exact ⟨⟨none, rfl⟩, rfl⟩
  · rw [if_pos (by simp [k1])]
    exact ⟨⟨none, rfl⟩, rfl⟩

/-- When every check passes, the endpoint issues the fresh token bound to
the code's scope, with `token_type: Bearer` and `expires_in: 3600`. -/
theorem token_exchange_success {st : OAuthStore} {f : TokenForm}
    (freshToken : String) {now : Nat} {client : DynamicClient}
    {ac : AuthorizationCode}
    (hg : f.grant_type = some "authorization_code")
    (hc : st.get_client f.client_id now = some client)
    (hs : client.client_secret = "" ∨ client.client_secret = f.client_secret)
    (hcons : (st.consume_authorization_code f.code now).1 = some ac)
    (h1 : ac.client_id = f.client_id) (h2 : ac.redirect_uri = f.redirect_uri)
    (h3 : verify_pkce f.code_verifier ac.code_challenge
      ac.code_challenge_method = true) :
    token_exchange st (some f) freshToken now =
      (.ok freshToken "Bearer" 3600 ac.scope,
       ((st.consume_authorization_code f.code now).2.create_access_token
         f.client_id ac.scope ac.resource freshToken now 3600).2) := by
  have hsec : ¬(client.client_secret ≠ "" ∧ client.client_secret ≠ f.client_secret) := by
    rcases hs with h | h <;> simp [h]
  rcases hp : st.consume_authorization_code f.code now with ⟨res, st1⟩
  have hres : res = some ac := by simpa [hp] using hcons
  subst hres
  simp only [token_exchange, hg, ne_eq, not_true_eq_false, if_false, hc,
    if_neg hsec, hp]
  rw [if_neg (by simp [h1]), if_neg (by simp [h2]), if_neg (by simp [h3])]
  rfl

/-- Consuming a live code returns its record and removes its entry. -/
theorem consume_live_code {st : OAuthStore} {code : String} {now : Nat}
    {rec : AuthorizationCode}
    (hl : lookupKey st.codes code = some rec) (hlive : ¬rec.expires_at < now) :
    (st.consume_authorization_code code now).1 = some rec ∧
    lookupKey (st.consume_authorization_code code now).2.codes code = none := by
  constructor
  · show lookupKey ((st.cleanup_expired_codes now)).codes code = some rec
    exact lookupKey_filter_of_pred _ hl (by simp [hlive])
  · exact lookupKey_eraseKey _ _

/-- After one consumption of `code`, any further consumption of `code`
observes "absent", at any later time. -/
theorem consume_after_consume (st : OAuthStore) (code : String) (now now₂ : Nat) :
    ((st.consume_authorization_code code now).2.consume_authorization_code
      code now₂).1 = none := by
  show lookupKey ((st.consume_authorization_code code now).2.cleanup_expired_codes
    now₂).codes code = none
  exact lookupKey_filter_none _ (lookupKey_eraseKey _ _)

/-! ## Helper lemmas about the authorization endpoint -/

/-- An unresolvable (or missing/empty) `client_id` yields the direct 400
`invalid_client` JSON response, with the store untouched. -/
theorem authorize_invalid_client {st : OAuthStore} {p : AuthorizeParams}
    (freshCode : String) (now : Nat)
    (h : resolveClient st p.client_id now = none) :
    authorize st p freshCode now = (.jsonError 400 "invalid_client", st) := by
  simp only [authorize, h]

/-- A missing `redirect_uri`, or one outside the client's allow-list,
yields the direct 400 `invalid_redirect_uri` JSON response. -/
theorem authorize_invalid_redirect {st : OAuthStore} {p : AuthorizeParams}
    (freshCode : String) (now : Nat) {client : DynamicClient}
    (hres : resolveClient st p.client_id now = some client)
    (hbad : ∀ r, p.redirect_uri = some r → r ∉ client.redirect_uris) :
    authorize st p freshCode now = (.jsonError 400 "invalid_redirect_uri", st) := by
  simp only [authorize, hres]
  cases hr : p.redirect_uri with
  | none => rfl
  | some r => simp [hbad r hr]

/-- After client and redirect pass, a falsy `code_challenge` or a method
other than `"S256"` yields a redirect to the verified `redirect_uri` with
the error, description and original state. -/
theorem authorize_pkce_redirect {st : OAuthStore} {p : AuthorizeParams}
    (freshCode : String) (now : Nat) {client : DynamicClient} {r : String}
    (hres : resolveClient st p.client_id now = some client)
    (hr : p.redirect_uri = some r) (hmem : r ∈ client.redirect_uris)
    (hpk : p.code_challenge = none ∨ p.code_challenge = some "" ∨
      p.code_challenge_method ≠ some "S256") :
    authorize st p freshCode now =
      (.redirect r
        [("error", "invalid_request"),
         ("error_description", "code_challenge with S256 method is required"),
         ("state", p.state.getD "")], st) := by
  simp only [authorize, hres, hr]
  rw [if_neg (by simp [hmem]), if_pos hpk]

/-- When all checks pass, a code is minted under the fresh value and the
endpoint redirects to the verified `redirect_uri` with `code` and `state`;
the minted record binds exactly the request's parameters with a 600 s TTL. -/
theorem authorize_success {st : OAuthStore} {p : AuthorizeParams}
    (freshCode : String) (now : Nat) {client : DynamicClient}
    {r cid cc : String}
    (hcid : p.client_id = some cid)
    (hres : resolveClient st p.client_id now = some client)
    (hr : p.redirect_uri = some r) (hmem : r ∈ client.redirect_uris)
    (hcc : p.code_challenge = some cc) (hne : cc ≠ "")
    (hm : p.code_challenge_method = some "S256") :
    authorize st p freshCode now =
      (.redirect r [("code", freshCode), ("state", p.state.getD "")],
       (st.create_authorization_code cid r cc "S256" (p.scope.getD "mcp")
         p.resource freshCode now 600).2) ∧
    lookupKey (authorize st p freshCode now).2.codes freshCode =
      some ⟨freshCode, cid, r, cc, "S256", p.scope.getD "mcp", now + 600,
        p.resource⟩ := by
  have hstep : authorize st p freshCode now =
      (.redirect r [("code", freshCode), ("state", p.state.getD "")],
       (st.create_authorization_code cid r cc "S256" (p.scope.getD "mcp")
         p.resource freshCode now 600).2) := by
    simp only [authorize, hres, hr]
    rw [if_neg (by simp [hmem]), if_neg (by simp [hcc, hne, hm])]
    simp only [hcid, hcc, hm, Option.getD_some]
    rfl
  refine ⟨hstep, ?_⟩
  rw [hstep]
  exact lookupKey_filter_of_pred _ (lookupKey_insertKey _ _ _)
    (by simp [show ¬(now + 600 < now) by omega])

/-! ## Claims -/

/-- C1: `consume_authorization_code` returns the stored record and removes
it in the same step; every later call with the same code returns absent;
and at the token endpoint an exchange attempt with a code that is no longer
stored — in particular a retry right after a successful exchange, with the
same otherwise-correct parameters — is rejected with 400 `invalid_grant`. -/
theorem C1_single_use_codes :
    (∀ (st : OAuthStore) (code : String) (now : Nat) (rec : AuthorizationCode),
      lookupKey st.codes code = some rec → ¬rec.expires_at < now →
        (st.consume_authorization_code code now).1 = some rec ∧
        lookupKey (st.consume_authorization_code code now).2.codes code = none ∧
        ∀ now₂, ((st.consume_authorization_code code now).2.consume_authorization_code
          code now₂).1 = none) ∧
    (∀ (st : OAuthStore) (f : TokenForm) (freshToken : String) (now : Nat)
      (client : DynamicClient),
      f.grant_type = some "authorization_code" →
      st.get_client f.client_id now = some client →
      (client.client_secret = "" ∨ client.client_secret = f.client_secret) →
      lookupKey st.codes f.code = none →
        (token_exchange st (some f) freshToken now).1 =
          .err 400 "invalid_grant" (some "Invalid or expired authorization code")) ∧
    (∀ (st : OAuthStore) (f : TokenForm) (tk₁ tk₂ : String) (now now₂ : Nat)
      (client : DynamicClient) (ac : AuthorizationCode),
      f.grant_type = some "authorization_code" →
      st.get_client f.client_id now = some client →
      (client.client_secret = "" ∨ client.client_secret = f.client_secret) →
      (st.consume_authorization_code f.code now).1 = some ac →
      ac.client_id = f.client_id → ac.redirect_uri = f.redirect_uri →
      verify_pkce f.code_verifier ac.code_challenge ac.code_challenge_method = true →
        (token_exchange st (some f) tk₁ now).1 = .ok tk₁ "Bearer" 3600 ac.scope ∧
        (token_exchange (token_exchange st (some f) tk₁ now).2 (some f) tk₂ now₂).1 =
          .err 400 "invalid_grant" (some "Invalid or expired authorization code")) := by
  refine ⟨?_, ?_, ?_⟩
  · intro st code now rec hl hlive
    obtain ⟨h1, h2⟩ := consume_live_code hl hlive
    exact ⟨h1, h2, fun now₂ => consume_after_consume st code now now₂⟩
  · intro st f freshToken now client hg hc hs habs
    exact (token_exchange_absent_code freshToken now hg hc hs habs).1
  · intro st f tk₁ tk₂ now now₂ client ac hg hc hs hcons h1 h2 h3
    have hsucc := token_exchange_success tk₁ hg hc hs hcons h1 h2 h3
    refine ⟨by rw [hsucc], ?_⟩
    have hsnd : (token_exchange st (some f) tk₁ now).2 =
        ((st.consume_authorization_code f.code now).2.create_access_token
          f.client_id ac.scope ac.resource tk₁ now 3600).2 :=
      congrArg Prod.snd hsucc
    have hcl : (token_exchange st (some f) tk₁ now).2.clients = st.clients := by
      rw [hsnd]; rfl
    have hfl : (token_exchange st (some f) tk₁ now).2.allow_any_client =
        st.allow_any_client := by
      rw [hsnd]; rfl
    obtain ⟨client', hc', hsec', _⟩ := get_client_secret_stable hcl hfl hc
    have hs' : client'.client_secret = "" ∨ client'.client_secret = f.client_secret := by
      rw [hsec']; exact hs
    have habs' : lookupKey (token_exchange st (some f) tk₁ now).2.codes f.code = none := by
      rw [hsnd]; exact lookupKey_eraseKey _ _
    exact (token_exchange_absent_code tk₂ now₂ hg hc' hs' habs').1

/-- C1 witness: a concrete end-to-end run — a live plain-method code is
consumed (returned and removed, later consumptions absent), one exchange
succeeds, the immediate retry with identical parameters gets 400
`invalid_grant`. -/
theorem C1_single_use_codes_witness :
    ((OAuthStore.consume_authorization_code
        ⟨[("cid", ⟨"cid", "sec", ["https://cb"], 0⟩)],
         [("c", ⟨"c", "cid", "https://cb", "v", "plain", "mcp", 100, none⟩)],
         [], false⟩ "c" 0).1 =
      some ⟨"c", "cid", "https://cb", "v", "plain", "mcp", 100, none⟩ ∧
     lookupKey (OAuthStore.consume_authorization_code
        ⟨[("cid", ⟨"cid", "sec", ["https://cb"], 0⟩)],
         [("c", ⟨"c", "cid", "https://cb", "v", "plain", "mcp", 100, none⟩)],
         [], false⟩ "c" 0).2.codes "c" = none ∧
     ∀ now₂, ((OAuthStore.consume_authorization_code
        ⟨[("cid", ⟨"cid", "sec", ["https://cb"], 0⟩)],
         [("c", ⟨"c", "cid", "https://cb", "v", "plain", "mcp", 100, none⟩)],
         [], false⟩ "c" 0).2.consume_authorization_code "c" now₂).1 = none) ∧
    ((token_exchange
        ⟨[("cid", ⟨"cid", "sec", ["https://cb"], 0⟩)],
         [("c", ⟨"c", "cid", "https://cb", "v", "plain", "mcp", 100, none⟩)],
         [], false⟩
        (some ⟨some "authorization_code", "c", "https://cb", "cid", "sec", "v"⟩)
        "tk1" 0).1 = .ok "tk1" "Bearer" 3600 "mcp" ∧
     (token_exchange
        (token_exchange
          ⟨[("cid", ⟨"cid", "sec", ["https://cb"], 0⟩)],
           [("c", ⟨"c", "cid", "https://cb", "v", "plain", "mcp", 100, none⟩)],
           [], false⟩
          (some ⟨some "authorization_code", "c", "https://cb", "cid", "sec", "v"⟩)
          "tk1" 0).2
        (some ⟨some "authorization_code", "c", "https://cb", "cid", "sec", "v"⟩)
        "tk2" 1).1 =
      .err 400 "invalid_grant" (some "Invalid or expired authorization code")) := by
  constructor
  · exact C1_single_use_codes.1
      ⟨[("cid", ⟨"cid", "sec", ["https://cb"], 0⟩)],
       [("c", ⟨"c", "cid", "https://cb", "v", "plain", "mcp", 100, none⟩)],
       [], false⟩ "c" 0
      ⟨"c", "cid", "https://cb", "v", "plain", "mcp", 100, none⟩
      (by decide) (by decide)
  · exact C1_single_use_codes.2.2
      ⟨[("cid", ⟨"cid", "sec", ["https://cb"], 0⟩)],
       [("c", ⟨"c", "cid", "https://cb", "v", "plain", "mcp", 100, none⟩)],
       [], false⟩
      ⟨some "authorization_code", "c", "https://cb", "cid", "sec", "v"⟩
      "tk1" "tk2" 0 1
      ⟨"cid", "sec", ["https://cb"], 0⟩
      ⟨"c", "cid", "https://cb", "v", "plain", "mcp", 100, none⟩
      (by decide) (by decide) (by decide) (by decide) (by decide) (by decide) (by decide)

/-- C2: `verify_pkce` returns true iff the method is `"S256"` and the
unpadded base64url of the SHA-256 digest of the UTF-8 verifier equals the
challenge exactly, or the method is `"plain"` and verifier equals
challenge; every other method yields false. The function consumes no
store and returns without raising on every input. -/
theorem C2_verify_pkce_iff (code_verifier code_challenge mthd : String) :
    verify_pkce code_verifier code_challenge mthd = true ↔
      ((mthd = "S256" ∧
        b64urlNoPad (sha256 (utf8Encode code_verifier)) = code_challenge) ∨
       (mthd = "plain" ∧ code_verifier = code_challenge)) := by
  unfold verify_pkce
  by_cases h1 : mthd = "S256"
  · simp [h1]
  · by_cases h2 : mthd = "plain" <;> simp [h1, h2]

/-- C3: when the token endpoint consumes a code and then fails a binding
or PKCE check, it answers 400 `invalid_grant`, the code stays removed, and
a second attempt with the same parameters also gets 400 `invalid_grant`. -/
theorem C3_code_burned_on_failed_exchange :
    ∀ (st : OAuthStore) (f : TokenForm) (freshToken : String) (now : Nat)
      (client : DynamicClient) (ac : AuthorizationCode),
      f.grant_type = some "authorization_code" →
      st.get_client f.client_id now = some client →
      (client.client_secret = "" ∨ client.client_secret = f.client_secret) →
      (st.consume_authorization_code f.code now).1 = some ac →
      (ac.client_id ≠ f.client_id ∨ ac.redirect_uri ≠ f.redirect_uri ∨
        verify_pkce f.code_verifier ac.code_challenge ac.code_challenge_method = false) →
      (∃ d, (token_exchange st (some f) freshToken now).1 = .err 400 "invalid_grant" d) ∧
      lookupKey (token_exchange st (some f) freshToken now).2.codes f.code = none ∧
      (∀ (freshToken₂ : String) (now₂ : Nat),
        (token_exchange (token_exchange st (some f) freshToken now).2 (some f)
          freshToken₂ now₂).1 =
        .err 400 "invalid_grant" (some "Invalid or expired authorization code")) := by
  intro st f freshToken now client ac hg hc hs hcons hfail
  obtain ⟨herr, hsnd⟩ := token_exchange_post_consume_failure hg hc hs hcons hfail
  have habs : lookupKey (token_exchange st (some f) freshToken now).2.codes f.code = none := by
    rw [hsnd]; exact lookupKey_eraseKey _ _
  refine ⟨herr, habs, fun freshToken₂ now₂ => ?_⟩
  have hcl : (token_exchange st (some f) freshToken now).2.clients = st.clients := by
    rw [hsnd]; rfl
  have hfl : (token_exchange st (some f) freshToken now).2.allow_any_client =
      st.allow_any_client := by
    rw [hsnd]; rfl
  obtain ⟨client', hc', hsec', _⟩ := get_client_secret_stable hcl hfl hc
  have hs' : client'.client_secret = "" ∨ client'.client_secret = f.client_secret := by
    rw [hsec']; exact hs
  exact (token_exchange_absent_code freshToken₂ now₂ hg hc' hs' habs).1

/-- C3 witness: a concrete exchange with the wrong `redirect_uri` — 400
`invalid_grant`, code gone, and the retry also 400 `invalid_grant`. -/
theorem C3_code_burned_witness :
    ((∃ d, (token_exchange
        ⟨[("cid", ⟨"cid", "sec", ["https://cb"], 0⟩)],
         [("c", ⟨"c", "cid", "https://cb", "v", "plain", "mcp", 100, none⟩)],
         [], false⟩
        (some ⟨some "authorization_code", "c", "https://evil", "cid", "sec", "v"⟩)
        "tk1" 0).1 = .err 400 "invalid_grant" d) ∧
     lookupKey (token_exchange
        ⟨[("cid", ⟨"cid", "sec", ["https://cb"], 0⟩)],
         [("c", ⟨"c", "cid", "https://cb", "v", "plain", "mcp", 100, none⟩)],
         [], false⟩
        (some ⟨some "authorization_code", "c", "https://evil", "cid", "sec", "v"⟩)
        "tk1" 0).2.codes "c" = none ∧
     (∀ (freshToken₂ : String) (now₂ : Nat),
       (token_exchange (token_exchange
          ⟨[("cid", ⟨"cid", "sec", ["https://cb"], 0⟩)],
           [("c", ⟨"c", "cid", "https://cb", "v", "plain", "mcp", 100, none⟩)],
           [], false⟩
          (some ⟨some "authorization_code", "c", "https://evil", "cid", "sec", "v"⟩)
          "tk1" 0).2
         (some ⟨some "authorization_code", "c", "https://evil", "cid", "sec", "v"⟩)
         freshToken₂ now₂).1 =
       .err 400 "invalid_grant" (some "Invalid or expired authorization code"))) :=
  C3_code_burned_on_failed_exchange
    ⟨[("cid", ⟨"cid", "sec", ["https://cb"], 0⟩)],
     [("c", ⟨"c", "cid", "https://cb", "v", "plain", "mcp", 100, none⟩)],
     [], false⟩
    ⟨some "authorization_code", "c", "https://evil", "cid", "sec", "v"⟩
    "tk1" 0
    ⟨"cid", "sec", ["https://cb"], 0⟩
    ⟨"c", "cid", "https://cb", "v", "plain", "mcp", 100, none⟩
    (by decide) (by decide) (by decide) (by decide) (by decide)

/-- C4: the authorization endpoint validates in order: unresolvable
client ⇒ direct 400 `invalid_client` JSON (no redirect); unlisted
`redirect_uri` ⇒ direct 400 `invalid_redirect_uri` JSON (no redirect);
only then, missing/empty `code_challenge` or a method other than `"S256"`
⇒ redirect to the verified `redirect_uri` with `error=invalid_request`,
a description and the original `state`; otherwise a code is minted and the
redirect carries `code` and `state`. -/
theorem C4_authorize_validation_order :
    ∀ (st : OAuthStore) (p : AuthorizeParams) (freshCode : String) (now : Nat),
      (resolveClient st p.client_id now = none →
        authorize st p freshCode now = (.jsonError 400 "invalid_client", st)) ∧
      (∀ client, resolveClient st p.client_id now = some client →
        (∀ r, p.redirect_uri = some r → r ∉ client.redirect_uris) →
        authorize st p freshCode now = (.jsonError 400 "invalid_redirect_uri", st)) ∧
      (∀ client r, resolveClient st p.client_id now = some client →
        p.redirect_uri = some r → r ∈ client.redirect_uris →
        (p.code_challenge = none ∨ p.code_challenge = some "" ∨
          p.code_challenge_method ≠ some "S256") →
        authorize st p freshCode now =
          (.redirect r
            [("error", "invalid_request"),
             ("error_description", "code_challenge with S256 method is required"),
             ("state", p.state.getD "")], st)) ∧
      (∀ client r cid cc, p.client_id = some cid →
        resolveClient st p.client_id now = some client →
        p.redirect_uri = some r → r ∈ client.redirect_uris →
        p.code_challenge = some cc → cc ≠ "" →
        p.code_challenge_method = some "S256" →
        (authorize st p freshCode now).1 =
          .redirect r [("code", freshCode), ("state", p.state.getD "")] ∧
        lookupKey (authorize st p freshCode now).2.codes freshCode =
          some ⟨freshCode, cid, r, cc, "S256", p.scope.getD "mcp", now + 600,
            p.resource⟩) := by
  intro st p freshCode now
  refine ⟨fun h => authorize_invalid_client freshCode now h,
    fun client hres hbad => authorize_invalid_redirect freshCode now hres hbad,
    fun client r hres hr hmem hpk => authorize_pkce_redirect freshCode now hres hr hmem hpk,
    fun client r cid cc hcid hres hr hmem hcc hne hm => ?_⟩
  obtain ⟨h1, h2⟩ := authorize_success freshCode now hcid hres hr hmem hcc hne hm
  exact ⟨by rw [h1], h2⟩

/-- C4 witness: a concrete unknown client gets the direct 400 JSON error,
and a concrete fully-valid request gets the code-carrying redirect with
the minted record stored. -/
theorem C4_authorize_validation_order_witness :
    (authorize ⟨[("cid", ⟨"cid", "sec", ["https://cb"], 0⟩)], [], [], false⟩
      ⟨some "ghost", some "https://cb", some "code", some "ch", some "S256",
        none, some "xyz", none⟩ "CODE" 7 =
      (.jsonError 400 "invalid_client",
       ⟨[("cid", ⟨"cid", "sec", ["https://cb"], 0⟩)], [], [], false⟩)) ∧
    ((authorize ⟨[("cid", ⟨"cid", "sec", ["https://cb"], 0⟩)], [], [], false⟩
      ⟨some "cid", some "https://cb", some "code", some "ch", some "S256",
        none, some "xyz", none⟩ "CODE" 7).1 =
      .redirect "https://cb" [("code", "CODE"), ("state", "xyz")] ∧
     lookupKey (authorize ⟨[("cid", ⟨"cid", "sec", ["https://cb"], 0⟩)], [], [], false⟩
      ⟨some "cid", some "https://cb", some "code", some "ch", some "S256",
        none, some "xyz", none⟩ "CODE" 7).2.codes "CODE" =
      some ⟨"CODE", "cid", "https://cb", "ch", "S256", "mcp", 607, none⟩) := by
  constructor
  · exact (C4_authorize_validation_order
      ⟨[("cid", ⟨"cid", "sec", ["https://cb"], 0⟩)], [], [], false⟩
      ⟨some "ghost", some "https://cb", some "code", some "ch", some "S256",
        none, some "xyz", none⟩ "CODE" 7).1 (by decide)
  · exact (C4_authorize_validation_order
      ⟨[("cid", ⟨"cid", "sec", ["https://cb"], 0⟩)], [], [], false⟩
      ⟨some "cid", some "https://cb", some "code", some "ch", some "S256",
        none, some "xyz", none⟩ "CODE" 7).2.2.2
      ⟨"cid", "sec", ["https://cb"], 0⟩ "https://cb" "cid" "ch"
      (by decide) (by decide) (by decide) (by decide) (by decide) (by decide) (by decide)

/-- C5 counterexample: the claim says a token is absent *at* `expires_at`,
but at `now = expires_at` the sweep predicate `expires_at < now` does not
fire and `validate_token` still returns the record. -/
theorem C5_counterexample :
    (OAuthStore.validate_token
      ⟨[], [], [("tok", ⟨"tok", "cid", "mcp", 5, none⟩)], false⟩ "tok" 5).1 =
      some ⟨"tok", "cid", "mcp", 5, none⟩ ∧ ¬(5 < 5) := by decide

/-- C5 (amended): for a stored token, `validate_token` returns the record
iff `now ≤ expires_at` (absent strictly after `expires_at`, even with no
intervening sweep), and validation never consumes or mutates a live token,
so repeated validations of an unexpired token all succeed. -/
theorem C5_validate_token_boundary (st : OAuthStore) (tok : String) (now : Nat)
    (rec : AccessToken) (h : lookupKey st.tokens tok = some rec) :
    ((st.validate_token tok now).1 = some rec ↔ now ≤ rec.expires_at) ∧
    (now ≤ rec.expires_at →
      lookupKey (st.validate_token tok now).2.tokens tok = some rec ∧
      ((st.validate_token tok now).2.validate_token tok now).1 = some rec) := by
  simp only [OAuthStore.validate_token, OAuthStore.cleanup_expired_tokens]
  constructor
  · constructor
    · intro hv
      have hp := lookupKey_filter_pred hv
      simp only [Bool.not_eq_eq_eq_not, Bool.not_true, decide_eq_false_iff_not] at hp
      exact Nat.le_of_not_lt hp
    · intro hle
      exact lookupKey_filter_of_pred _ h
        (by simp [Nat.not_lt.mpr hle])
  · intro hle
    have hkeep : lookupKey (st.tokens.filter
        (fun p => !decide (p.2.expires_at < now))) tok = some rec :=
      lookupKey_filter_of_pred _ h (by simp [Nat.not_lt.mpr hle])
    exact ⟨hkeep, lookupKey_filter_of_pred _ hkeep (by simp [Nat.not_lt.mpr hle])⟩

/-- C5 witness: the boundary behaviour on a concrete store — valid one
tick before expiry (and on repeat), with the iff discharged concretely. -/
theorem C5_validate_token_boundary_witness :
    ((OAuthStore.validate_token
        ⟨[], [], [("tok", ⟨"tok", "cid", "mcp", 5, none⟩)], false⟩ "tok" 4).1 =
      some ⟨"tok", "cid", "mcp", 5, none⟩ ↔ 4 ≤ 5) ∧
    (4 ≤ 5 →
      lookupKey (OAuthStore.validate_token
        ⟨[], [], [("tok", ⟨"tok", "cid", "mcp", 5, none⟩)], false⟩ "tok" 4).2.tokens
        "tok" = some ⟨"tok", "cid", "mcp", 5, none⟩ ∧
      ((OAuthStore.validate_token
        ⟨[], [], [("tok", ⟨"tok", "cid", "mcp", 5, none⟩)], false⟩
        "tok" 4).2.validate_token "tok" 4).1 = some ⟨"tok", "cid", "mcp", 5, none⟩) :=
  C5_validate_token_boundary
    ⟨[], [], [("tok", ⟨"tok", "cid", "mcp", 5, none⟩)], false⟩ "tok" 4
    ⟨"tok", "cid", "mcp", 5, none⟩ (by decide)

/-- C6: in ambient mode a lookup of an unregistered `client_id` returns a
synthesized virtual client with the empty secret and the fixed two-element
ambient allow-list, recomputed per call (`created_at` is the call time;
`get_client` performs no store write — it takes the store and returns only
the client); at the token endpoint an empty client secret makes the
outcome independent of the supplied `client_secret`, while a non-empty
stored secret that differs from the supplied one yields 401
`invalid_client`. -/
theorem C6_ambient_virtual_client :
    (∀ (st : OAuthStore) (cid : String) (now : Nat),
      st.allow_any_client = true → lookupKey st.clients cid = none →
      st.get_client cid now = some ⟨cid, "", ambientRedirectUris, now⟩) ∧
    ambientRedirectUris =
      ["https://chatgpt.com/connector_platform_oauth_redirect",
       "https://platform.openai.com/apps-manage/oauth"] ∧
    (∀ (st : OAuthStore) (f : TokenForm) (freshToken : String) (now : Nat)
      (client : DynamicClient) (s₁ s₂ : String),
      st.get_client f.client_id now = some client →
      client.client_secret = "" →
      token_exchange st (some { f with client_secret := s₁ }) freshToken now =
        token_exchange st (some { f with client_secret := s₂ }) freshToken now) ∧
    (∀ (st : OAuthStore) (f : TokenForm) (freshToken : String) (now : Nat)
      (client : DynamicClient),
      f.grant_type = some "authorization_code" →
      st.get_client f.client_id now = some client →
      client.client_secret ≠ "" → client.client_secret ≠ f.client_secret →
      token_exchange st (some f) freshToken now =
        (.err 401 "invalid_client" none, st)) := by
  refine ⟨?_, rfl, ?_, ?_⟩
  · intro st cid now hflag habs
    unfold OAuthStore.get_client
    rw [habs, if_pos hflag]
  · intro st f freshToken now client s₁ s₂ hc hsec
    simp only [token_exchange, hc, hsec, ne_eq, not_true_eq_false, false_and,
      if_false]
  · intro st f freshToken now client hg hc hne hmm
    simp only [token_exchange, hg, ne_eq, not_true_eq_false, if_false, hc]
    rw [if_pos ⟨hne, hmm⟩]

/-- C6 witness: a concrete ambient store resolves an unregistered id to
the virtual client; a concrete exchange outcome ignores the supplied
secret for an empty-secret client; a concrete wrong secret for a
registered client yields 401 `invalid_client`. -/
theorem C6_ambient_virtual_client_witness :
    ((OAuthStore.init true).get_client "mcp_anything" 9 =
      some ⟨"mcp_anything", "", ambientRedirectUris, 9⟩) ∧
    (token_exchange (OAuthStore.init true)
        (some ⟨some "authorization_code", "c", "r", "mcp_anything", "guess1", "v"⟩)
        "tk" 0 =
      token_exchange (OAuthStore.init true)
        (some ⟨some "authorization_code", "c", "r", "mcp_anything", "guess2", "v"⟩)
        "tk" 0) ∧
    (token_exchange ⟨[("cid", ⟨"cid", "sec", ["https://cb"], 0⟩)], [], [], false⟩
        (some ⟨some "authorization_code", "c", "r", "cid", "wrong", "v"⟩) "tk" 0 =
      (.err 401 "invalid_client" none,
       ⟨[("cid", ⟨"cid", "sec", ["https://cb"], 0⟩)], [], [], false⟩)) := by
  refine ⟨?_, ?_, ?_⟩
  · exact C6_ambient_virtual_client.1 (OAuthStore.init true) "mcp_anything" 9
      rfl (by decide)
  · exact C6_ambient_virtual_client.2.2.1 (OAuthStore.init true)
      ⟨some "authorization_code", "c", "r", "mcp_anything", "ignored", "v"⟩
      "tk" 0 ⟨"mcp_anything", "", ambientRedirectUris, 0⟩ "guess1" "guess2"
      (by decide) (by decide)
  · exact C6_ambient_virtual_client.2.2.2
      ⟨[("cid", ⟨"cid", "sec", ["https://cb"], 0⟩)], [], [], false⟩
      ⟨some "authorization_code", "c", "r", "cid", "wrong", "v"⟩ "tk" 0
      ⟨"cid", "sec", ["https://cb"], 0⟩
      (by decide) (by decide) (by decide) (by decide)

/-- C7: on a path matching a protected prefix, a missing `Authorization`
header, a non-`Bearer ` scheme, or a token `validate_token` rejects each
yields 401 with body error `invalid_token` and a `WWW-Authenticate` header
of exactly the required shape; non-protected paths pass through with the
store untouched. -/
theorem C7_bearer_gate :
    ∀ (cfg : MiddlewareConfig) (st : OAuthStore) (path : String)
      (authHeader : Option String) (now : Nat),
      (cfg.protected_paths.any (fun pre => strStartsWith path pre) = false →
        dispatch cfg st path authHeader now = (.passthrough, st)) ∧
      (cfg.protected_paths.any (fun pre => strStartsWith path pre) = true →
        (authHeader = none ∨
         ∃ h, authHeader = some h ∧ (h = "" ∨ strStartsWith h "Bearer " = false)) →
        dispatch cfg st path authHeader now =
          (.unauthorized 401 "invalid_token" "Bearer token required"
            ("Bearer realm=\"" ++ cfg.resource_uri ++ "\", resource_metadata=\"" ++
             cfg.metadata_uri ++
             "\", scope=\"mcp\", error=\"invalid_token\", error_description=\"" ++
             "Bearer token required" ++ "\""), st)) ∧
      (∀ h, cfg.protected_paths.any (fun pre => strStartsWith path pre) = true →
        authHeader = some h → h ≠ "" → strStartsWith h "Bearer " = true →
        (st.validate_token (strDrop h 7) now).1 = none →
        dispatch cfg st path authHeader now =
          (.unauthorized 401 "invalid_token" "Invalid or expired token"
            ("Bearer realm=\"" ++ cfg.resource_uri ++ "\", resource_metadata=\"" ++
             cfg.metadata_uri ++
             "\", scope=\"mcp\", error=\"invalid_token\", error_description=\"" ++
             "Invalid or expired token" ++ "\""),
           (st.validate_token (strDrop h 7) now).2)) ∧
      (∀ h info, cfg.protected_paths.any (fun pre => strStartsWith path pre) = true →
        authHeader = some h → h ≠ "" → strStartsWith h "Bearer " = true →
        (st.validate_token (strDrop h 7) now).1 = some info →
        dispatch cfg st path authHeader now =
          (.forwarded info.client_id info.scope,
           (st.validate_token (strDrop h 7) now).2)) := by
  intro cfg st path authHeader now
  refine ⟨?_, ?_, ?_, ?_⟩
  · intro hno
    simp [dispatch, hno]
  · intro hprot hbad
    rcases hbad with rfl | ⟨h, rfl, hcase⟩
    · simp [dispatch, hprot, unauthorized_response]
    · have hcond : h = "" ∨ strStartsWith h "Bearer " = false := hcase
      simp only [dispatch, hprot, Bool.not_true, Bool.false_eq_true, if_false]
      rw [if_pos hcond]
      rfl
  · intro h hprot heq hne hbearer hvnone
    subst heq
    rcases hp : st.validate_token (strDrop h 7) now with ⟨res, st1⟩
    have hres : res = none := by simpa [hp] using hvnone
    subst hres
    simp only [dispatch, hprot, Bool.not_true, Bool.false_eq_true, if_false]
    rw [if_neg (by simp [hne, hbearer])]
    simp only [hp]
    rfl
  · intro h info hprot heq hne hbearer hvsome
    subst heq
    rcases hp : st.validate_token (strDrop h 7) now with ⟨res, st1⟩
    have hres : res = some info := by simpa [hp] using hvsome
    subst hres
    simp only [dispatch, hprot, Bool.not_true, Bool.false_eq_true, if_false]
    rw [if_neg (by simp [hne, hbearer])]
    simp only [hp]

/-- C7 witness: on a concrete protected path, the three 401 modes carry
the exact header and body, a valid token is forwarded with its
client/scope, and a non-protected path passes through. -/
theorem C7_bearer_gate_witness :
    (dispatch ⟨["/mcp"], "https://srv", "https://srv/.well-known/oauth-protected-resource"⟩
      ⟨[], [], [("t0k", ⟨"t0k", "cid", "mcp", 50, none⟩)], false⟩ "/health" none 0 =
      (.passthrough, ⟨[], [], [("t0k", ⟨"t0k", "cid", "mcp", 50, none⟩)], false⟩)) ∧
    (dispatch ⟨["/mcp"], "https://srv", "https://srv/.well-known/oauth-protected-resource"⟩
      ⟨[], [], [("t0k", ⟨"t0k", "cid", "mcp", 50, none⟩)], false⟩ "/mcp/call" none 0 =
      (.unauthorized 401 "invalid_token" "Bearer token required"
        ("Bearer realm=\"" ++ "https://srv" ++ "\", resource_metadata=\"" ++
         "https://srv/.well-known/oauth-protected-resource" ++
         "\", scope=\"mcp\", error=\"invalid_token\", error_description=\"" ++
         "Bearer token required" ++ "\""),
       ⟨[], [], [("t0k", ⟨"t0k", "cid", "mcp", 50, none⟩)], false⟩)) ∧
    (dispatch ⟨["/mcp"], "https://srv", "https://srv/.well-known/oauth-protected-resource"⟩
      ⟨[], [], [("t0k", ⟨"t0k", "cid", "mcp", 50, none⟩)], false⟩ "/mcp/call"
      (some "Bearer nope") 0 =
      (.unauthorized 401 "invalid_token" "Invalid or expired token"
        ("Bearer realm=\"" ++ "https://srv" ++ "\", resource_metadata=\"" ++
         "https://srv/.well-known/oauth-protected-resource" ++
         "\", scope=\"mcp\", error=\"invalid_token\", error_description=\"" ++
         "Invalid or expired token" ++ "\""),
       ⟨[], [], [("t0k", ⟨"t0k", "cid", "mcp", 50, none⟩)], false⟩)) ∧
    (dispatch ⟨["/mcp"], "https://srv", "https://srv/.well-known/oauth-protected-resource"⟩
      ⟨[], [], [("t0k", ⟨"t0k", "cid", "mcp", 50, none⟩)], false⟩ "/mcp/call"
      (some "Bearer t0k") 0 =
      (.forwarded "cid" "mcp",
       ⟨[], [], [("t0k", ⟨"t0k", "cid", "mcp", 50, none⟩)], false⟩)) := by
  refine ⟨?_, ?_, ?_, ?_⟩
  · exact (C7_bearer_gate
      ⟨["/mcp"], "https://srv", "https://srv/.well-known/oauth-protected-resource"⟩
      ⟨[], [], [("t0k", ⟨"t0k", "cid", "mcp", 50, none⟩)], false⟩
      "/health" none 0).1 (by decide)
  · exact (C7_bearer_gate
      ⟨["/mcp"], "https://srv", "https://srv/.well-known/oauth-protected-resource"⟩
      ⟨[], [], [("t0k", ⟨"t0k", "cid", "mcp", 50, none⟩)], false⟩
      "/mcp/call" none 0).2.1 (by decide) (Or.inl rfl)
  · exact (C7_bearer_gate
      ⟨["/mcp"], "https://srv", "https://srv/.well-known/oauth-protected-resource"⟩
      ⟨[], [], [("t0k", ⟨"t0k", "cid", "mcp", 50, none⟩)], false⟩
      "/mcp/call" (some "Bearer nope") 0).2.2.1 "Bearer nope"
      (by decide) rfl (by decide) (by decide) (by decide)
  · exact (C7_bearer_gate
      ⟨["/mcp"], "https://srv", "https://srv/.well-known/oauth-protected-resource"⟩
      ⟨[], [], [("t0k", ⟨"t0k", "cid", "mcp", 50, none⟩)], false⟩
      "/mcp/call" (some "Bearer t0k") 0).2.2.2 "Bearer t0k"
      ⟨"t0k", "cid", "mcp", 50, none⟩
      (by decide) rfl (by decide) (by decide) (by decide)

/-- C8 counterexample: the claim says the store operation
`register_client` rejects an empty `redirect_uris`, but the Python method
performs no validation — with an empty list it still builds, stores and
returns the client record. -/
theorem C8_counterexample :
    ((OAuthStore.init false).register_client [] "mcp_empty" "s3c" 0).1 =
      ⟨"mcp_empty", "s3c", [], 0⟩ ∧
    lookupKey ((OAuthStore.init false).register_client [] "mcp_empty" "s3c"
      0).2.clients "mcp_empty" = some ⟨"mcp_empty", "s3c", [], 0⟩ := by decide

/-- C8 (amended): the store operation `register_client` performs no
validation — for every `redirect_uris` list (empty included) it stores and
returns the record; the rejection happens at the registration endpoint,
where an unparsable body yields 400 `invalid_request` and a missing,
falsy (e.g. empty), or non-array `redirect_uris` yields 400
`invalid_redirect_uri`; a truthy array is registered with 201. -/
theorem C8_registration_validation :
    (∀ (st : OAuthStore) (uris : List String) (cid sec : String) (now : Nat),
      (st.register_client uris cid sec now).1 = ⟨cid, sec, uris, now⟩ ∧
      lookupKey (st.register_client uris cid sec now).2.clients cid =
        some ⟨cid, sec, uris, now⟩) ∧
    (∀ (st : OAuthStore) (fid fsec : String) (now : Nat),
      register_client_endpoint st none fid fsec now =
        (.err 400 "invalid_request" "Invalid JSON", st)) ∧
    (∀ (st : OAuthStore) (body : List (String × Json)) (fid fsec : String)
      (now : Nat),
      (lookupKey body "redirect_uris" = none ∨
       ∃ j, lookupKey body "redirect_uris" = some j ∧
         (jsonTruthy j = false ∨ jsonIsArr j = false)) →
      register_client_endpoint st (some body) fid fsec now =
        (.err 400 "invalid_redirect_uri"
          "redirect_uris is required and must be an array", st)) ∧
    (∀ (st : OAuthStore) (body : List (String × Json)) (fid fsec : String)
      (now : Nat) (j : Json),
      lookupKey body "redirect_uris" = some j →
      jsonTruthy j = true → jsonIsArr j = true →
      register_client_endpoint st (some body) fid fsec now =
        (.created 201 ⟨fid, fsec, jsonArrStrs j, now⟩,
         { st with clients :=
            insertKey st.clients fid ⟨fid, fsec, jsonArrStrs j, now⟩ })) := by
  refine ⟨?_, fun st fid fsec now => rfl, ?_, ?_⟩
  · intro st uris cid sec now
    exact ⟨rfl, lookupKey_insertKey _ _ _⟩
  · intro st body fid fsec now hbad
    rcases hbad with hmiss | ⟨j, hj, hfalse⟩
    · simp only [register_client_endpoint, hmiss, Option.getD_none]
      rw [if_pos (by simp [jsonTruthy, List.isEmpty])]
    · simp only [register_client_endpoint, hj, Option.getD_some]
      rcases hfalse with hf | hf
      · rw [if_pos (by simp [hf])]
      · rw [if_pos (by simp [hf])]
  · intro st body fid fsec now j hj ht ha
    simp only [register_client_endpoint, hj, Option.getD_some]
    rw [if_neg (by simp [ht, ha])]
    rfl

/-- C8 witness: concrete endpoint runs — missing, empty-array, and
string-valued `redirect_uris` each rejected with 400
`invalid_redirect_uri`; a singleton string array registered with 201 and
stored. -/
theorem C8_registration_validation_witness :
    (((OAuthStore.init false).register_client ["https://cb"] "mcp_x" "s3c" 3).1 =
      ⟨"mcp_x", "s3c", ["https://cb"], 3⟩ ∧
     lookupKey ((OAuthStore.init false).register_client ["https://cb"] "mcp_x"
       "s3c" 3).2.clients "mcp_x" = some ⟨"mcp_x", "s3c", ["https://cb"], 3⟩) ∧
    (register_client_endpoint (OAuthStore.init false) (some []) "mcp_x" "s3c" 3 =
      (.err 400 "invalid_redirect_uri"
        "redirect_uris is required and must be an array", OAuthStore.init false)) ∧
    (register_client_endpoint (OAuthStore.init false)
      (some [("redirect_uris", Json.arr [])]) "mcp_x" "s3c" 3 =
      (.err 400 "invalid_redirect_uri"
        "redirect_uris is required and must be an array", OAuthStore.init false)) ∧
    (register_client_endpoint (OAuthStore.init false)
      (some [("redirect_uris", Json.str "https://cb")]) "mcp_x" "s3c" 3 =
      (.err 400 "invalid_redirect_uri"
        "redirect_uris is required and must be an array", OAuthStore.init false)) ∧
    (register_client_endpoint (OAuthStore.init false)
      (some [("redirect_uris", Json.arr [Json.str "https://cb"])]) "mcp_x" "s3c" 3 =
      (.created 201 ⟨"mcp_x", "s3c", ["https://cb"], 3⟩,
       ⟨[("mcp_x", ⟨"mcp_x", "s3c", ["https://cb"], 3⟩)], [], [], false⟩)) := by
  refine ⟨?_, ?_, ?_, ?_, ?_⟩
  · exact C8_registration_validation.1 (OAuthStore.init false) ["https://cb"]
      "mcp_x" "s3c" 3
  · exact C8_registration_validation.2.2.1 (OAuthStore.init false) [] "mcp_x"
      "s3c" 3 (Or.inl rfl)
  · exact C8_registration_validation.2.2.1 (OAuthStore.init false)
      [("redirect_uris", Json.arr [])] "mcp_x" "s3c" 3
      (Or.inr ⟨Json.arr [], rfl, Or.inl rfl⟩)
  · exact C8_registration_validation.2.2.1 (OAuthStore.init false)
      [("redirect_uris", Json.str "https://cb")] "mcp_x" "s3c" 3
      (Or.inr ⟨Json.str "https://cb", rfl, Or.inr rfl⟩)
  · exact C8_registration_validation.2.2.2 (OAuthStore.init false)
      [("redirect_uris", Json.arr [Json.str "https://cb"])] "mcp_x" "s3c" 3
      (Json.arr [Json.str "https://cb"]) rfl rfl rfl

/-- C9: the vault layer is *not* uniformly confined as claimed.
`VaultService.ls` validates only through `_resolve_inside_vault`, whose
`relative_to` check is lexical and keeps `".."` components, so
`ls("../secrets")` is accepted and the directory it opens — after the
kernel resolves `".."` — lies outside the vault root. `read`/`write`
reject the same path (their hidden-component check catches `".."`), and
`glob` rejects it explicitly. -/
theorem C9_ls_accepts_parent_traversal :
    ls_validate ["home", "user", "vault"] "../secrets" =
      .ok ["home", "user", "vault", "..", "secrets"] ∧
    normalizeParts ["home", "user", "vault", "..", "secrets"] =
      ["home", "user", "secrets"] ∧
    List.isPrefixOf ["home", "user", "vault"] ["home", "user", "secrets"] = false ∧
    read_validate ["home", "user", "vault"] "../secrets" =
      .error "hidden paths are not allowed" ∧
    glob_validate "../secrets" =
      .error "pattern must be relative and not escape vault" ∧
    ls_validate ["home", "user", "vault"] ".obsidian" =
      .ok ["home", "user", "vault", ".obsidian"] := by decide

/-- C10: the authorization endpoint never inspects `response_type` — its
outcome is identical for any two values of the parameter, and a request
passing client resolution, redirect membership and the S256 challenge
check receives the code-carrying redirect whatever `response_type` holds
(absent included) — although the server metadata advertises only the
`"code"` response type. -/
theorem C10_response_type_ignored :
    (∀ (st : OAuthStore) (p : AuthorizeParams) (freshCode : String) (now : Nat)
      (rt₁ rt₂ : Option String),
      authorize st { p with response_type := rt₁ } freshCode now =
        authorize st { p with response_type := rt₂ } freshCode now) ∧
    (∀ issuer : String,
      (authorization_server_metadata issuer).response_types_supported = ["code"]) ∧
    (∀ (st : OAuthStore) (p : AuthorizeParams) (freshCode : String) (now : Nat)
      (client : DynamicClient) (r cid cc : String) (rt : Option String),
      p.client_id = some cid →
      resolveClient st p.client_id now = some client →
      p.redirect_uri = some r → r ∈ client.redirect_uris →
      p.code_challenge = some cc → cc ≠ "" →
      p.code_challenge_method = some "S256" →
      (authorize st { p with response_type := rt } freshCode now).1 =
        .redirect r [("code", freshCode), ("state", p.state.getD "")]) := by
  refine ⟨?_, fun issuer => rfl, ?_⟩
  · intro st p freshCode now rt₁ rt₂
    cases p
    rfl
  · intro st p freshCode now client r cid cc rt hcid hres hr hmem hcc hne hm
    exact congrArg Prod.fst
      ((@authorize_success st { p with response_type := rt } freshCode now client
        r cid cc hcid hres hr hmem hcc hne hm).1)

/-- C10 witness: on a concrete valid request the outcomes for
`response_type=token` and an absent `response_type` coincide, and with
`response_type=token` (not `"code"`) the code redirect is still issued. -/
theorem C10_response_type_ignored_witness :
    (authorize ⟨[("cid", ⟨"cid", "sec", ["https://cb"], 0⟩)], [], [], false⟩
      ⟨some "cid", some "https://cb", some "token", some "ch", some "S256",
        none, some "xyz", none⟩ "CODE" 7 =
     authorize ⟨[("cid", ⟨"cid", "sec", ["https://cb"], 0⟩)], [], [], false⟩
      ⟨some "cid", some "https://cb", none, some "ch", some "S256",
        none, some "xyz", none⟩ "CODE" 7) ∧
    ((authorize ⟨[("cid", ⟨"cid", "sec", ["https://cb"], 0⟩)], [], [], false⟩
      ⟨some "cid", some "https://cb", some "token", some "ch", some "S256",
        none, some "xyz", none⟩ "CODE" 7).1 =
      .redirect "https://cb" [("code", "CODE"), ("state", "xyz")]) := by
  constructor
  · exact C10_response_type_ignored.1
      ⟨[("cid", ⟨"cid", "sec", ["https://cb"], 0⟩)], [], [], false⟩
      ⟨some "cid", some "https://cb", none, some "ch", some "S256",
        none, some "xyz", none⟩ "CODE" 7 (some "token") none
  · exact C10_response_type_ignored.2.2
      ⟨[("cid", ⟨"cid", "sec", ["https://cb"], 0⟩)], [], [], false⟩
      ⟨some "cid", some "https://cb", none, some "ch", some "S256",
        none, some "xyz", none⟩ "CODE" 7
      ⟨"cid", "sec", ["https://cb"], 0⟩ "https://cb" "cid" "ch" (some "token")
      (by decide) (by decide) (by decide) (by decide) (by decide) (by decide)
      (by decide)

end ObsidianAgent
